import Mathlib

/-!
Shallow embedding of the RAG chat front-end (src/src/App.tsx, with the
near-duplicate variant src/unnamed/part_000) and proofs about it.

The embedded functions are `getOrCreateSessionId`, `uploadPDF`,
`handleFileUpload` and `sendMessage`.  The asynchronous `sendMessage` is
split at its single `await` point into `sendMessage_start` (everything
before the fetch resolves: guard, payload construction, optimistic user
append, input reset) and `sendMessage_finish` (the resolution handler:
assistant append on a parsed body, error toast otherwise).  Clock reads
(`Date.now()` / `new Date()`) are passed in as explicit natural-number
parameters; network outcomes are passed in as values of `FetchOutcome`.
-/

namespace ChatApp

/-- Role tag of a message, the `type` field in the source
(`'user' | 'assistant'`). -/
inductive Role where
  | user
  | assistant
deriving DecidableEq

/-- Response mode (`'pdf' | 'web' | 'llm'` in the source). -/
inductive Mode where
  | pdf
  | web
  | llm
deriving DecidableEq

/-- A chat message as built by `sendMessage` in App.tsx:
`{ id, type, content, timestamp, source }`.  The `timestamp` (a JS `Date`)
is modelled as the millisecond clock reading that produced it. -/
structure Message where
  id : String
  type : Role
  content : String
  timestamp : Nat
  source : Option Mode
deriving DecidableEq

/-- A toast notice as raised via `useToast` in the source:
title, optional description, and whether the `destructive` variant
(error styling) was requested. -/
structure Toast where
  title : String
  description : Option String := none
  destructive : Bool := false
deriving DecidableEq

/-- A selected DOM file: only the `name` and `type` fields are read by the
source (`file.name`, `file.type`). -/
structure File where
  name : String
  type : String
deriving DecidableEq

/-- JS truthiness test for a `string | null | undefined` value:
`null`, `undefined` and the empty string are falsy.  Models the guards
`!sessionId` and `!pdfPath` in the source. -/
def jsFalsy : Option String → Bool
  | none => true
  | some s => s = ""

/-- JS `a || b` for a `string | undefined` left operand `a` with a string
fallback `b`, as in `data.reply || 'No response received.'`. -/
def jsOr (v : Option String) (fallback : String) : String :=
  match v with
  | none => fallback
  | some s => if s = "" then fallback else s

/-- JS `String.prototype.trim`: strips leading and trailing whitespace.
Modelled directly over the character list (Lean.String.trim is
observationally the same on the inputs we use but does not reduce in the
kernel). -/
def jsTrim (s : String) : String :=
  ⟨((s.data.dropWhile Char.isWhitespace).reverse.dropWhile Char.isWhitespace).reverse⟩

/-- Browser localStorage, modelled as an association list from keys to
stored strings. -/
abbrev Storage := List (String × String)

/-- localStorage.getItem: the stored value under a key, or none. -/
def getItem (s : Storage) (k : String) : Option String :=
  (s.find? (fun p => p.1 = k)).map (·.2)

/-- localStorage.setItem: replaces any binding of the key. -/
def setItem (s : Storage) (k v : String) : Storage :=
  (k, v) :: s.filter (fun p => ¬ p.1 = k)

/-- Result of one `getOrCreateSessionId` call: the returned string, the
storage afterwards, and the list of (key, value) writes the call
performed. -/
structure SessionResult where
  sessionId : String
  store : Storage
  writes : List (String × String)
deriving DecidableEq

/-- Embedding of `getOrCreateSessionId` (App.tsx lines 11-18).
`randomUUID` stands for the value `crypto.randomUUID()` would return on
this call. -/
def getOrCreateSessionId (randomUUID : String) (store : Storage) : SessionResult :=
  let sessionId := getItem store "chat_session_id"
  if jsFalsy sessionId then
    { sessionId := randomUUID
      store := setItem store "chat_session_id" randomUUID
      writes := [("chat_session_id", randomUUID)] }
  else
    { sessionId := sessionId.getD ""
      store := store
      writes := [] }

/-- Outcome of one `fetch` call with body type `β`:
the promise rejects (`networkError`), or it resolves with `res.ok` and a
body that either parses as JSON of shape `β` (`some`) or makes
`res.json()` throw (`none`). -/
inductive FetchOutcome (β : Type) where
  | networkError : FetchOutcome β
  | response (ok : Bool) (body : Option β) : FetchOutcome β
deriving DecidableEq

/-- JSON body of a successful-parse `/chat` response: an optional `reply`
string field. -/
structure ChatBody where
  reply : Option String
deriving DecidableEq

/-- JSON body of a successful-parse `/upload_pdf` response: an optional
`pdf_path` string field. -/
structure UploadBody where
  pdf_path : Option String
deriving DecidableEq

/-- The component state of `App` that the embedded handlers read or
write. -/
structure AppState where
  message : String
  isLoading : Bool
  messages : List Message
  selectedFile : Option File
  pdfPath : Option String
  messageType : Option Mode
  sessionId : String
deriving DecidableEq

/-- The JSON payload `sendMessage` posts to `{BACKEND_URL}/chat`. -/
structure ChatPayload where
  session_id : String
  User_message : String
  pdf_path : Option String
deriving DecidableEq

/-- Embedding of `uploadPDF` (App.tsx lines 57-64) applied to a given
fetch outcome: `none` models the function throwing (rejected fetch,
`!res.ok`, or a body on which `res.json()` throws), `some p` models it
returning `data.pdf_path` (itself `none` when the field is absent). -/
def uploadPDF (outcome : FetchOutcome UploadBody) : Option (Option String) :=
  match outcome with
  | .networkError => none
  | .response ok body =>
    if !ok then none
    else
      match body with
      | none => none
      | some data => some data.pdf_path

/-- The toast raised on a non-PDF selection. -/
def invalidTypeToast : Toast :=
  { title := "Invalid file type", description := some "Please upload a PDF file", destructive := true }

/-- The toast raised when `uploadPDF` throws. -/
def uploadFailToast : Toast :=
  { title := "PDF upload failed", destructive := true }

/-- The toast raised on a successful upload. -/
def uploadedToast (name : String) : Toast :=
  { title := "PDF uploaded", description := some (name ++ " uploaded & ready.") }

/-- The toast raised when the `/chat` fetch or its body parse throws. -/
def sendFailToast : Toast :=
  { title := "Failed to send message", destructive := true }

/-- Embedding of `handleFileUpload` (App.tsx lines 66-82).  `file` is
`event.target.files?.[0]`; `outcome` is the `/upload_pdf` fetch outcome
consumed by `uploadPDF` when that call is made.  Returns the new state, a
Boolean recording whether the upload endpoint was called at all, and the
toasts raised. -/
def handleFileUpload (st : AppState) (file : Option File)
    (outcome : FetchOutcome UploadBody) : AppState × Bool × List Toast :=
  match file with
  | some f =>
    if f.type = "application/pdf" then
      let st1 := { st with selectedFile := some f, messageType := some Mode.pdf }
      match uploadPDF outcome with
      | some uploadedPath =>
        ({ st1 with pdfPath := uploadedPath }, true, [uploadedToast f.name])
      | none =>
        ({ st1 with pdfPath := none }, true, [uploadFailToast])
    else (st, false, [invalidTypeToast])
  | none => (st, false, [invalidTypeToast])

/-- The user message `sendMessage` appends optimistically:
`{ id: Date.now().toString(), type: 'user', content: message,
timestamp: new Date(), source: messageType }` with `now` the clock
reading. -/
def sentUserMessage (st : AppState) (now : Nat) : Message :=
  { id := toString now
    type := Role.user
    content := st.message
    timestamp := now
    source := st.messageType }

/-- The assistant message `sendMessage` appends when the `/chat` body
parses: `{ id: (Date.now() + 1).toString(), type: 'assistant',
content: data.reply || 'No response received.', timestamp: new Date(),
source: messageType }` with `resolveTime` the clock reading at
resolution and `capturedMode` the `messageType` closed over at call
time. -/
def receivedAssistantMessage (capturedMode : Option Mode) (data : ChatBody)
    (resolveTime : Nat) : Message :=
  { id := toString (resolveTime + 1)
    type := Role.assistant
    content := jsOr data.reply "No response received."
    timestamp := resolveTime
    source := capturedMode }

/-- Result of the synchronous prefix of `sendMessage`: the state after
the guard, the optimistic append and the input reset, and — unless the
guard returned early — the payload posted to `/chat` together with the
`messageType` value captured by the closure. -/
structure SendStart where
  state : AppState
  request : Option (ChatPayload × Option Mode)
deriving DecidableEq

/-- Embedding of `sendMessage` (App.tsx lines 89-111) up to the `await`:
guard `if (!message.trim() && !pdfPath) return`, `setIsLoading(true)`,
payload construction, optimistic user append, `setMessage('')`,
`setMessageType(undefined)`.  `now` is the clock reading. -/
def sendMessage_start (st : AppState) (now : Nat) : SendStart :=
  if jsFalsy (some (jsTrim st.message)) && jsFalsy st.pdfPath then
    { state := st, request := none }
  else
    let payload : ChatPayload :=
      { session_id := st.sessionId
        User_message := st.message
        pdf_path := st.pdfPath }
    { state :=
        { st with
          isLoading := true
          messages := st.messages ++ [sentUserMessage st now]
          message := ""
          messageType := none }
      request := some (payload, st.messageType) }

/-- Result of the resolution handler of `sendMessage`: the state
afterwards and the toasts raised. -/
structure SendFinish where
  state : AppState
  toasts : List Toast
deriving DecidableEq

/-- Embedding of `sendMessage` (App.tsx lines 112-131) from the `await`
on: `res.json()` is attempted on any resolved response — `res.ok` is
never consulted — and the assistant message is appended from the parsed
body; a rejected fetch or a throwing `res.json()` lands in the catch
block, which only toasts; `finally` clears `isLoading`. -/
def sendMessage_finish (st : AppState) (capturedMode : Option Mode)
    (resolveTime : Nat) (outcome : FetchOutcome ChatBody) : SendFinish :=
  match outcome with
  | .networkError =>
    { state := { st with isLoading := false }, toasts := [sendFailToast] }
  | .response _ok body =>
    match body with
    | none =>
      { state := { st with isLoading := false }, toasts := [sendFailToast] }
    | some data =>
      { state :=
          { st with
            isLoading := false
            messages := st.messages ++ [receivedAssistantMessage capturedMode data resolveTime] }
        toasts := [] }

/-- One complete `sendMessage` call with no interleaved state changes:
the start phase followed, on the same state, by the finish phase.
Returns the finish result and the payload posted (none when the guard
returned early and no request was issued). -/
def sendMessage (st : AppState) (now resolveTime : Nat)
    (outcome : FetchOutcome ChatBody) : SendFinish × Option ChatPayload :=
  let s1 := sendMessage_start st now
  match s1.request with
  | none => ({ state := s1.state, toasts := [] }, none)
  | some (payload, capturedMode) =>
    (sendMessage_finish s1.state capturedMode resolveTime outcome, some payload)

/-- Structural recursion equivalent of the fuel-based digit printer
Nat.toDigitsCore at base 10, used to reason about the message ids the
dispatcher derives from clock readings. -/
def toDigitsSpec (n : Nat) (ds : List Char) : List Char :=
  let d := Nat.digitChar (n % 10)
  if h : n / 10 = 0 then d :: ds
  else toDigitsSpec (n / 10) (d :: ds)
decreasing_by
  exact Nat.div_lt_self (Nat.pos_of_ne_zero (fun h0 => h (by simp [h0]))) (by decide)

/-- Numeric value of a decimal digit character. -/
def digitVal (c : Char) : Nat := c.toNat - 48

/-- Numeric value of a big-endian list of decimal digit characters. -/
def valDigits : List Char → Nat
  | [] => 0
  | c :: cs => digitVal c * 10 ^ cs.length + valDigits cs

/-- A sample component state used to instantiate the general theorems. -/
def sampleState : AppState :=
  { message := "hello"
    isLoading := false
    messages := []
    selectedFile := none
    pdfPath := none
    messageType := none
    sessionId := "sess-1" }

/-- Sample state whose input text is whitespace only and which has no
attachment reference. -/
def blankState : AppState := { sampleState with message := "   " }

/-- Sample state whose input text is whitespace only but which has an
attachment reference set. -/
def blankWithPdfState : AppState :=
  { sampleState with message := " ", pdfPath := some "/tmp/abc123.pdf" }

/-- Sample state with an uploaded document reference and a non-blank
input text. -/
def pdfState : AppState :=
  { sampleState with message := "What is in it?", pdfPath := some "/tmp/abc123.pdf" }

/-- A selected file whose media type is not PDF. -/
def textFile : File := { name := "notes.txt", type := "text/plain" }

/-- A selected PDF file. -/
def notesPdf : File := { name := "notes.pdf", type := "application/pdf" }

/-- First of two sends issued during the same millisecond (clock reading
5 for both). -/
def firstSend : SendStart := sendMessage_start { sampleState with message := "a" } 5

/-- Second send, issued in the same millisecond as `firstSend`, after
the user typed a new text. -/
def secondSend : SendStart := sendMessage_start { firstSend.state with message := "b" } 5

/-- Helper: the early-return guard of sendMessage evaluates to false when
a blank trimmed text implies a truthy attachment reference. -/
theorem guard_false_of_imp (text : String) (pdfPath : Option String)
    (h : jsTrim text = "" → jsFalsy pdfPath = false) :
    (jsFalsy (some (jsTrim text)) && jsFalsy pdfPath) = false := by
  by_cases ht : jsTrim text = ""
  · rw [h ht, Bool.and_false]
  · have hf : jsFalsy (some (jsTrim text)) = false := by simp [jsFalsy, ht]
    rw [hf, Bool.false_and]

/-- Helper: the early-return guard of sendMessage evaluates to false
under the send precondition. -/
theorem guard_false_of_pre (st : AppState)
    (hpre : ¬ (jsTrim st.message = "" ∧ jsFalsy st.pdfPath = true)) :
    (jsFalsy (some (jsTrim st.message)) && jsFalsy st.pdfPath) = false := by
  rcases not_and_or.mp hpre with h | h
  · simp [jsFalsy, h]
  · simp [Bool.not_eq_true] at h
    simp [h]

/-- Helper: the synchronous prefix of sendMessage when the guard does not
fire: optimistic user append, input reset, and the posted payload. -/
theorem sendMessage_start_of_guard_false (st : AppState) (now : Nat)
    (hg : (jsFalsy (some (jsTrim st.message)) && jsFalsy st.pdfPath) = false) :
    sendMessage_start st now =
      { state :=
          { st with
            isLoading := true
            messages := st.messages ++ [sentUserMessage st now]
            message := ""
            messageType := none }
        request := some ({ session_id := st.sessionId, User_message := st.message, pdf_path := st.pdfPath }, st.messageType) } := by
  unfold sendMessage_start
  simp [hg]

/-- Helper: a full sendMessage call when the guard does not fire. -/
theorem sendMessage_eq_of_guard_false (st : AppState) (now resolveTime : Nat)
    (outcome : FetchOutcome ChatBody)
    (hg : (jsFalsy (some (jsTrim st.message)) && jsFalsy st.pdfPath) = false) :
    sendMessage st now resolveTime outcome =
      (sendMessage_finish
        { st with
          isLoading := true
          messages := st.messages ++ [sentUserMessage st now]
          message := ""
          messageType := none }
        st.messageType resolveTime outcome,
       some { session_id := st.sessionId, User_message := st.message, pdf_path := st.pdfPath }) := by
  unfold sendMessage
  rw [sendMessage_start_of_guard_false st now hg]

/-- Helper: the resolution handler of sendMessage only ever touches
isLoading and messages. -/
theorem sendMessage_finish_fields (st : AppState) (capturedMode : Option Mode)
    (resolveTime : Nat) (outcome : FetchOutcome ChatBody) :
    (sendMessage_finish st capturedMode resolveTime outcome).state.message = st.message
    ∧ (sendMessage_finish st capturedMode resolveTime outcome).state.messageType = st.messageType
    ∧ (sendMessage_finish st capturedMode resolveTime outcome).state.pdfPath = st.pdfPath
    ∧ (sendMessage_finish st capturedMode resolveTime outcome).state.sessionId = st.sessionId
    ∧ (sendMessage_finish st capturedMode resolveTime outcome).state.selectedFile = st.selectedFile := by
  cases outcome with
  | networkError => simp [sendMessage_finish]
  | response ok body => cases body <;> simp [sendMessage_finish]

/-- Helper: reading a key back from localStorage right after writing it. -/
theorem getItem_setItem (s : Storage) (k v : String) : getItem (setItem s k v) k = some v := by
  simp [getItem, setItem]

/-- Helper: with enough fuel, the fuel-based digit printer of core agrees
with its structural-recursion equivalent. -/
theorem toDigitsCore_eq_spec : ∀ (f n : Nat) (ds : List Char), n < f →
    Nat.toDigitsCore 10 f n ds = toDigitsSpec n ds := by
  intro f
  induction f with
  | zero => intro n ds h; exact absurd h (Nat.not_lt_zero n)
  | succ f ih =>
    intro n ds h
    rw [Nat.toDigitsCore, toDigitsSpec]
    by_cases h0 : n / 10 = 0
    · simp [h0]
    · simp only [h0, if_false, dif_neg h0]
      exact ih (n / 10) _ (lt_of_lt_of_le
        (Nat.div_lt_self (Nat.pos_of_ne_zero (fun hz => h0 (by simp [hz]))) (by decide))
        (Nat.lt_succ_iff.mp h))

/-- Helper: digitVal inverts Nat.digitChar on decimal digits. -/
theorem digitVal_digitChar : ∀ d, d < 10 → digitVal (Nat.digitChar d) = d := by decide

/-- Helper: valDigits recovers the printed number, shifted past the
accumulator. -/
theorem valDigits_toDigitsSpec (n : Nat) :
    ∀ ds, valDigits (toDigitsSpec n ds) = n * 10 ^ ds.length + valDigits ds := by
  induction n using Nat.strong_induction_on with
  | _ n ih =>
    intro ds
    rw [toDigitsSpec]
    by_cases h0 : n / 10 = 0
    · simp only [dif_pos h0, valDigits]
      rw [digitVal_digitChar _ (Nat.mod_lt n (by decide))]
      have hm : n % 10 = n := by omega
      rw [hm]
    · simp only [dif_neg h0]
      rw [ih (n / 10) (Nat.div_lt_self (Nat.pos_of_ne_zero (fun hz => h0 (by simp [hz])))
        (by decide)) (Nat.digitChar (n % 10) :: ds)]
      simp only [valDigits, List.length_cons]
      rw [digitVal_digitChar _ (Nat.mod_lt _ (by decide))]
      have hq : n / 10 * 10 ^ (ds.length + 1) + (n % 10 * 10 ^ ds.length + valDigits ds)
          = (10 * (n / 10) + n % 10) * 10 ^ ds.length + valDigits ds := by ring
      rw [hq, Nat.div_add_mod]

/-- Helper: valDigits recovers the printed number exactly. -/
theorem valDigits_toDigitsSpec_nil (n : Nat) : valDigits (toDigitsSpec n []) = n := by
  have h := valDigits_toDigitsSpec n []
  simpa [valDigits] using h

/-- Helper: the decimal string rendering of natural numbers (the JS
Number.prototype.toString applied to Date.now values) is injective. -/
theorem toString_nat_injective {m n : Nat} (h : toString m = toString n) : m = n := by
  have hm : toString m = (toDigitsSpec m []).asString := by
    show Nat.repr m = _
    rw [Nat.repr, Nat.toDigits, toDigitsCore_eq_spec (m + 1) m [] (Nat.lt_succ_self m)]
  have hn : toString n = (toDigitsSpec n []).asString := by
    show Nat.repr n = _
    rw [Nat.repr, Nat.toDigits, toDigitsCore_eq_spec (n + 1) n [] (Nat.lt_succ_self n)]
  rw [hm, hn] at h
  have hl : toDigitsSpec m [] = toDigitsSpec n [] := by
    have hdata := congrArg String.data h
    simpa [List.asString] using hdata
  calc m = valDigits (toDigitsSpec m []) := (valDigits_toDigitsSpec_nil m).symm
    _ = valDigits (toDigitsSpec n []) := by rw [hl]
    _ = n := valDigits_toDigitsSpec_nil n

/-- C1 counterexample: a send answered with a non-2xx HTTP status whose
body still parses as JSON is treated as success by the dispatcher: an
assistant message IS appended (store length grows by 2, not 1) and NO
error notice is raised, because the code never consults res.ok on the
chat response. -/
theorem send_non2xx_treated_as_success :
    (sendMessage sampleState 3 5
        (FetchOutcome.response false (some { reply := some "Internal Server Error" }))).1.state.messages.length = 2
    ∧ ¬ (sendMessage sampleState 3 5
        (FetchOutcome.response false (some { reply := some "Internal Server Error" }))).1.state.messages.length = 1
    ∧ (sendMessage sampleState 3 5
        (FetchOutcome.response false (some { reply := some "Internal Server Error" }))).1.toasts = [] := by
  decide

/-- C1 (amended): for every send whose chat request throws — a network
error, or a resolved response whose body fails to parse as JSON — the
dispatcher surfaces the failure toast, appends no assistant message, and
keeps the already-appended user message, so the store grows by exactly 1;
the request payload was still posted. -/
theorem send_throwing_failure_appends_only_user (st : AppState) (now resolveTime : Nat)
    (outcome : FetchOutcome ChatBody)
    (hpre : ¬ (jsTrim st.message = "" ∧ jsFalsy st.pdfPath = true))
    (hfail : outcome = FetchOutcome.networkError
      ∨ ∃ ok : Bool, outcome = FetchOutcome.response ok none) :
    (sendMessage st now resolveTime outcome).1.toasts = [sendFailToast]
    ∧ (sendMessage st now resolveTime outcome).1.state.messages
        = st.messages ++ [sentUserMessage st now]
    ∧ (sendMessage st now resolveTime outcome).1.state.messages.length
        = st.messages.length + 1
    ∧ (sendMessage st now resolveTime outcome).2
        = some { session_id := st.sessionId, User_message := st.message, pdf_path := st.pdfPath } := by
  have hg := guard_false_of_pre st hpre
  rw [sendMessage_eq_of_guard_false st now resolveTime _ hg]
  rcases hfail with h | ⟨ok, h⟩ <;> subst h <;> simp [sendMessage_finish]

/-- C1 witness: the amended theorem at a concrete network failure. -/
theorem send_network_error_witness :
    (sendMessage sampleState 3 5 FetchOutcome.networkError).1.toasts = [sendFailToast]
    ∧ (sendMessage sampleState 3 5 FetchOutcome.networkError).1.state.messages.length = 1 :=
  ⟨(send_throwing_failure_appends_only_user sampleState 3 5 FetchOutcome.networkError
      (by decide) (Or.inl rfl)).1,
   (send_throwing_failure_appends_only_user sampleState 3 5 FetchOutcome.networkError
      (by decide) (Or.inl rfl)).2.2.1⟩

/-- C2: for every send satisfying the precondition whose chat request
succeeds, the store grows by exactly 2 for that call: a user message
reflecting the input text and mode is appended first, the assistant
message last, in that order relative to this call even when other calls
interleave appends (mid) between the two. -/
theorem send_success_appends_user_then_assistant (st : AppState) (now resolveTime : Nat)
    (data : ChatBody) (mid : List Message)
    (hpre : ¬ (jsTrim st.message = "" ∧ jsFalsy st.pdfPath = true)) :
    (sendMessage_start st now).request =
      some ({ session_id := st.sessionId, User_message := st.message, pdf_path := st.pdfPath },
        st.messageType)
    ∧ (sendMessage_start st now).state.messages = st.messages ++ [sentUserMessage st now]
    ∧ (sendMessage_finish
          { (sendMessage_start st now).state with
            messages := (sendMessage_start st now).state.messages ++ mid }
          st.messageType resolveTime (FetchOutcome.response true (some data))).state.messages
        = st.messages ++ [sentUserMessage st now] ++ mid
            ++ [receivedAssistantMessage st.messageType data resolveTime]
    ∧ (sendMessage_finish
          { (sendMessage_start st now).state with
            messages := (sendMessage_start st now).state.messages ++ mid }
          st.messageType resolveTime (FetchOutcome.response true (some data))).state.messages.length
        = st.messages.length + mid.length + 2 := by
  have hg := guard_false_of_pre st hpre
  unfold sendMessage_start sendMessage_finish
  simp [hg, List.append_assoc]
  omega

/-- C2 witness: the theorem at a concrete successful send with no
interleaved appends. -/
theorem send_success_witness :
    (sendMessage_finish
        { (sendMessage_start sampleState 3).state with
          messages := (sendMessage_start sampleState 3).state.messages ++ ([] : List Message) }
        sampleState.messageType 5
        (FetchOutcome.response true (some { reply := some "hi" }))).state.messages.length
      = sampleState.messages.length + ([] : List Message).length + 2 :=
  (send_success_appends_user_then_assistant sampleState 3 5 { reply := some "hi" }
    ([] : List Message) (by decide)).2.2.2

/-- C3: a send invoked with a text that is blank after trimming and no
attachment reference set is a no-op: the state (hence the conversation
store) is unchanged, no payload is posted, and no toast is raised. -/
theorem send_blank_no_attachment_noop (st : AppState) (now resolveTime : Nat)
    (outcome : FetchOutcome ChatBody)
    (hblank : jsTrim st.message = "") (hpdf : st.pdfPath = none) :
    sendMessage st now resolveTime outcome = ({ state := st, toasts := [] }, none) := by
  unfold sendMessage sendMessage_start
  simp [jsFalsy, hblank, hpdf]

/-- C3 witness: the theorem at a concrete whitespace-only input. -/
theorem send_blank_noop_witness :
    sendMessage blankState 3 4 FetchOutcome.networkError
      = ({ state := blankState, toasts := [] }, none) :=
  send_blank_no_attachment_noop blankState 3 4 FetchOutcome.networkError (by decide) rfl

/-- C4: getOrCreateSessionId is idempotent within one storage scope: on a
scope holding no session id it returns the freshly generated identifier
and performs exactly the one write, and every subsequent call returns
that same string, performs no write, and leaves the storage unchanged
(crypto.randomUUID never returns the empty string, whence the nonempty
hypothesis on the generated value). -/
theorem getOrCreateSessionId_idempotent (uuid : String) (store : Storage)
    (hfresh : getItem store "chat_session_id" = none) (huuid : ¬ uuid = "") :
    (getOrCreateSessionId uuid store).sessionId = uuid
    ∧ (getOrCreateSessionId uuid store).writes = [("chat_session_id", uuid)]
    ∧ getItem (getOrCreateSessionId uuid store).store "chat_session_id" = some uuid
    ∧ ∀ uuid2 : String,
        (getOrCreateSessionId uuid2 (getOrCreateSessionId uuid store).store).sessionId = uuid
        ∧ (getOrCreateSessionId uuid2 (getOrCreateSessionId uuid store).store).writes = []
        ∧ (getOrCreateSessionId uuid2 (getOrCreateSessionId uuid store).store).store
            = (getOrCreateSessionId uuid store).store := by
  have h1 : getOrCreateSessionId uuid store =
      { sessionId := uuid, store := setItem store "chat_session_id" uuid,
        writes := [("chat_session_id", uuid)] } := by
    unfold getOrCreateSessionId
    simp [hfresh, jsFalsy]
  refine ⟨by rw [h1], by rw [h1], ?_, ?_⟩
  · rw [h1]
    exact getItem_setItem store "chat_session_id" uuid
  · intro uuid2
    have h2 : getOrCreateSessionId uuid2 (setItem store "chat_session_id" uuid) =
        { sessionId := uuid, store := setItem store "chat_session_id" uuid, writes := [] } := by
      unfold getOrCreateSessionId
      simp [getItem_setItem, jsFalsy, huuid]
    rw [h1, h2]
    exact ⟨rfl, rfl, rfl⟩

/-- C4 witness: the theorem on an empty storage with two distinct
candidate identifiers. -/
theorem getOrCreateSessionId_witness :
    (getOrCreateSessionId "uuid-1" []).sessionId = "uuid-1"
    ∧ (getOrCreateSessionId "uuid-2" (getOrCreateSessionId "uuid-1" []).store).sessionId = "uuid-1"
    ∧ (getOrCreateSessionId "uuid-2" (getOrCreateSessionId "uuid-1" []).store).writes = [] :=
  ⟨(getOrCreateSessionId_idempotent "uuid-1" [] rfl (by decide)).1,
   ((getOrCreateSessionId_idempotent "uuid-1" [] rfl (by decide)).2.2.2 "uuid-2").1,
   ((getOrCreateSessionId_idempotent "uuid-1" [] rfl (by decide)).2.2.2 "uuid-2").2.1⟩

/-- C5: for every send whose chat request succeeds with a body lacking a
reply field or carrying an empty reply, the appended assistant message
has exactly the literal fallback content. -/
theorem send_empty_reply_fallback (st : AppState) (now resolveTime : Nat) (data : ChatBody)
    (hpre : ¬ (jsTrim st.message = "" ∧ jsFalsy st.pdfPath = true))
    (hreply : data.reply = none ∨ data.reply = some "") :
    (sendMessage st now resolveTime (FetchOutcome.response true (some data))).1.state.messages
      = st.messages ++ [sentUserMessage st now,
          { id := toString (resolveTime + 1), type := Role.assistant,
            content := "No response received.", timestamp := resolveTime,
            source := st.messageType }] := by
  have hg := guard_false_of_pre st hpre
  rw [sendMessage_eq_of_guard_false st now resolveTime _ hg]
  have hc : jsOr data.reply "No response received." = "No response received." := by
    rcases hreply with h | h <;> simp [jsOr, h]
  simp [sendMessage_finish, receivedAssistantMessage, hc]

/-- C5 witness: the theorem at a concrete response body with no reply
field. -/
theorem send_empty_reply_witness :
    (sendMessage sampleState 3 5 (FetchOutcome.response true (some { reply := none }))).1.state.messages
      = sampleState.messages ++ [sentUserMessage sampleState 3,
          { id := "6", type := Role.assistant, content := "No response received.",
            timestamp := 5, source := none }] :=
  send_empty_reply_fallback sampleState 3 5 { reply := none } (by decide) (Or.inl rfl)

/-- C6: a file-selection event carrying a file whose media type is not
PDF never calls the upload endpoint and leaves the whole state — in
particular the attachment reference — unchanged; only the invalid-type
toast is produced. -/
theorem upload_non_pdf_noop (st : AppState) (f : File) (outcome : FetchOutcome UploadBody)
    (h : ¬ f.type = "application/pdf") :
    handleFileUpload st (some f) outcome = (st, false, [invalidTypeToast]) := by
  unfold handleFileUpload
  simp [h]

/-- C6 witness: the theorem at a concrete plain-text file. -/
theorem upload_non_pdf_witness :
    handleFileUpload sampleState (some textFile) FetchOutcome.networkError
      = (sampleState, false, [invalidTypeToast]) :=
  upload_non_pdf_noop sampleState textFile FetchOutcome.networkError (by decide)

/-- C7 counterexample: on a PDF upload answered with HTTP 500 the
attachment reference ends null and the upload-failure toast is raised,
but the selected-file display state is NOT cleared: it still holds the
selected file. -/
theorem upload_500_selected_file_not_cleared :
    (handleFileUpload sampleState (some notesPdf)
        (FetchOutcome.response false (some { pdf_path := some "/tmp/abc123.pdf" }))).1.selectedFile
      = some notesPdf
    ∧ ¬ (handleFileUpload sampleState (some notesPdf)
        (FetchOutcome.response false (some { pdf_path := some "/tmp/abc123.pdf" }))).1.selectedFile
      = none
    ∧ (handleFileUpload sampleState (some notesPdf)
        (FetchOutcome.response false (some { pdf_path := some "/tmp/abc123.pdf" }))).1.pdfPath
      = none
    ∧ (handleFileUpload sampleState (some notesPdf)
        (FetchOutcome.response false (some { pdf_path := some "/tmp/abc123.pdf" }))).2.2
      = [uploadFailToast] := by
  decide

/-- C7 (amended): for every PDF upload attempt answered with a non-2xx
status, the attachment reference ends null, the upload-failure toast is
surfaced, and the selected-file display state is set to the selected
file (it is not cleared). -/
theorem upload_non2xx_clears_path_keeps_file (st : AppState) (f : File) (body : Option UploadBody)
    (hf : f.type = "application/pdf") :
    handleFileUpload st (some f) (FetchOutcome.response false body)
      = ({ st with selectedFile := some f, messageType := some Mode.pdf, pdfPath := none },
         true, [uploadFailToast]) := by
  unfold handleFileUpload uploadPDF
  simp [hf]

/-- C7 witness: the amended theorem at a concrete PDF file and HTTP 500
response. -/
theorem upload_500_witness :
    handleFileUpload sampleState (some notesPdf)
        (FetchOutcome.response false (some { pdf_path := some "/tmp/abc123.pdf" }))
      = ({ sampleState with selectedFile := some notesPdf, messageType := some Mode.pdf, pdfPath := none }, true, [uploadFailToast]) :=
  upload_non2xx_clears_path_keeps_file sampleState notesPdf
    (some { pdf_path := some "/tmp/abc123.pdf" }) rfl

/-- C8: every send (meeting the send precondition) clears the transient
input text and resets the mode to unset while leaving the attachment
reference and session id unchanged, so a follow-up send from the
resulting state posts a payload carrying the same pdf_path and
session_id. -/
theorem send_clears_input_keeps_attachment (st : AppState) (now resolveTime : Nat)
    (outcome : FetchOutcome ChatBody)
    (hpre : ¬ (jsTrim st.message = "" ∧ jsFalsy st.pdfPath = true)) :
    (sendMessage st now resolveTime outcome).1.state.message = ""
    ∧ (sendMessage st now resolveTime outcome).1.state.messageType = none
    ∧ (sendMessage st now resolveTime outcome).1.state.pdfPath = st.pdfPath
    ∧ (sendMessage st now resolveTime outcome).1.state.sessionId = st.sessionId
    ∧ ∀ (text2 : String) (mode2 : Option Mode) (now2 resolveTime2 : Nat)
        (outcome2 : FetchOutcome ChatBody),
        (jsTrim text2 = "" → jsFalsy st.pdfPath = false) →
        (sendMessage
            { (sendMessage st now resolveTime outcome).1.state with
              message := text2, messageType := mode2 }
            now2 resolveTime2 outcome2).2
          = some { session_id := st.sessionId, User_message := text2, pdf_path := st.pdfPath } := by
  have hg := guard_false_of_pre st hpre
  have hmain := sendMessage_eq_of_guard_false st now resolveTime outcome hg
  obtain ⟨f1, f2, f3, f4, f5⟩ := sendMessage_finish_fields
    { st with
      isLoading := true
      messages := st.messages ++ [sentUserMessage st now]
      message := ""
      messageType := none }
    st.messageType resolveTime outcome
  have hpdf2 : (sendMessage st now resolveTime outcome).1.state.pdfPath = st.pdfPath := by
    rw [hmain]; exact f3
  have hsid2 : (sendMessage st now resolveTime outcome).1.state.sessionId = st.sessionId := by
    rw [hmain]; exact f4
  refine ⟨by rw [hmain]; exact f1, by rw [hmain]; exact f2, hpdf2, hsid2, ?_⟩
  intro text2 mode2 now2 resolveTime2 outcome2 hpre2
  have hg2 : (jsFalsy (some (jsTrim (({ (sendMessage st now resolveTime outcome).1.state with
        message := text2, messageType := mode2 } : AppState).message)))
      && jsFalsy (({ (sendMessage st now resolveTime outcome).1.state with
        message := text2, messageType := mode2 } : AppState).pdfPath)) = false := by
    show (jsFalsy (some (jsTrim text2))
        && jsFalsy (sendMessage st now resolveTime outcome).1.state.pdfPath) = false
    rw [hpdf2]
    exact guard_false_of_imp text2 st.pdfPath hpre2
  rw [sendMessage_eq_of_guard_false _ now2 resolveTime2 outcome2 hg2]
  simp [hsid2, hpdf2]

/-- C8 witness: a send against an uploaded document followed by a second
send posting the same pdf_path. -/
theorem send_clears_witness :
    (sendMessage pdfState 3 5 FetchOutcome.networkError).1.state.pdfPath = some "/tmp/abc123.pdf"
    ∧ (sendMessage
        { (sendMessage pdfState 3 5 FetchOutcome.networkError).1.state with
          message := "What is the summary?", messageType := none }
        7 9 FetchOutcome.networkError).2
      = some { session_id := "sess-1", User_message := "What is the summary?",
               pdf_path := some "/tmp/abc123.pdf" } :=
  ⟨(send_clears_input_keeps_attachment pdfState 3 5 FetchOutcome.networkError (by decide)).2.2.1,
   (send_clears_input_keeps_attachment pdfState 3 5 FetchOutcome.networkError
      (by decide)).2.2.2.2 "What is the summary?" none 7 9 FetchOutcome.networkError (by decide)⟩

/-- C9 counterexample: two sends issued during the same millisecond
produce two distinct user messages (contents a and b) carrying the SAME
id string, so message ids are not unique. -/
theorem same_millisecond_duplicate_ids :
    secondSend.state.messages.map Message.id = ["5", "5"]
    ∧ secondSend.state.messages.map Message.content = ["a", "b"] := by
  decide

/-- C9 (amended): message ids are the decimal renderings of clock
readings — the send-time reading for a user message, the resolve-time
reading plus one for an assistant message — so any two messages whose
underlying readings differ have distinct ids; messages created at the
same millisecond may collide. -/
theorem message_ids_distinct_of_distinct_clocks (st1 st2 : AppState)
    (capturedMode1 capturedMode2 : Option Mode) (data1 data2 : ChatBody)
    (now1 now2 resolveTime1 resolveTime2 : Nat) :
    (¬ now1 = now2 → ¬ (sentUserMessage st1 now1).id = (sentUserMessage st2 now2).id)
    ∧ (¬ now1 = resolveTime1 + 1 →
        ¬ (sentUserMessage st1 now1).id = (receivedAssistantMessage capturedMode1 data1 resolveTime1).id)
    ∧ (¬ resolveTime1 = resolveTime2 →
        ¬ (receivedAssistantMessage capturedMode1 data1 resolveTime1).id
          = (receivedAssistantMessage capturedMode2 data2 resolveTime2).id) := by
  refine ⟨fun h hc => h ?_, fun h hc => h ?_, fun h hc => ?_⟩
  · exact toString_nat_injective hc
  · exact toString_nat_injective hc
  · have hr := toString_nat_injective hc
    omega

/-- C9 witness: the amended theorem at concrete distinct clock
readings. -/
theorem message_ids_distinct_witness :
    ¬ (sentUserMessage sampleState 1).id = (sentUserMessage sampleState 2).id
    ∧ ¬ (sentUserMessage sampleState 1).id
        = (receivedAssistantMessage none { reply := none } 5).id
    ∧ ¬ (receivedAssistantMessage none { reply := none } 5).id
        = (receivedAssistantMessage none { reply := none } 7).id :=
  ⟨(message_ids_distinct_of_distinct_clocks sampleState sampleState none none
      { reply := none } { reply := none } 1 2 5 7).1 (by decide),
   (message_ids_distinct_of_distinct_clocks sampleState sampleState none none
      { reply := none } { reply := none } 1 2 5 7).2.1 (by decide),
   (message_ids_distinct_of_distinct_clocks sampleState sampleState none none
      { reply := none } { reply := none } 1 2 5 7).2.2 (by decide)⟩

/-- C10: with an attachment reference set and a text blank after
trimming, send is not a no-op: it posts a payload whose User_message is
the untrimmed blank text and appends a user message whose content is
that same blank text. -/
theorem send_blank_with_attachment_not_noop (st : AppState) (now : Nat)
    (hblank : jsTrim st.message = "") (hpdf : jsFalsy st.pdfPath = false) :
    (sendMessage_start st now).request =
      some ({ session_id := st.sessionId, User_message := st.message, pdf_path := st.pdfPath },
        st.messageType)
    ∧ (sendMessage_start st now).state.messages = st.messages ++ [sentUserMessage st now]
    ∧ (sentUserMessage st now).content = st.message := by
  unfold sendMessage_start
  simp [hpdf, sentUserMessage]

/-- C10 witness: the theorem at a concrete single-space text with an
uploaded document reference. -/
theorem send_blank_with_attachment_witness :
    (sendMessage_start blankWithPdfState 9).request
      = some ({ session_id := "sess-1", User_message := " ",
                pdf_path := some "/tmp/abc123.pdf" }, none) :=
  (send_blank_with_attachment_not_noop blankWithPdfState 9 (by decide) (by decide)).1

end ChatApp
